import Mathlib

/-
Verification of the MCP orchestrator pipeline (src/orchestrator.js,
src/mcp-2-tester.js, src/mcp-4-validator.js) against its design
specification.  The JavaScript source is shallowly embedded: every
definition below mirrors a function or object shape of the source file
named in its doc comment.  JavaScript `undefined` on an optional field is
modelled as `Option.none`; a thrown exception is modelled as
`Except.error` carrying a `JsError`.
-/

namespace MCP

/-- JavaScript string `includes` helper on `List Char`: true when `pat`
occurs as a contiguous sublist of the remaining text. -/
def hasSub : List Char → List Char → Bool
  | [], pat => pat.isEmpty
  | h :: t, pat => pat.isPrefixOf (h :: t) || hasSub t pat

/-- JavaScript `String.prototype.includes`. The empty pattern is contained
in every string, as in JavaScript. -/
def jsIncludes (s pat : String) : Bool :=
  hasSub s.data pat.data

/-- JavaScript `Math.round (num / den)` for natural `num`, `den` with
`den > 0`: rounding half away from zero, computed exactly on rationals.
The source only ever rounds percentages built from small integer
weights, where the FP computation agrees with the exact one. -/
def jsRound (num den : Nat) : Nat :=
  (2 * num + den) / (2 * den)

/-- JavaScript `Array.prototype.join(", ")`. -/
def joinComma (l : List String) : String :=
  String.intercalate ", " l

/-- JavaScript `String.prototype.trim`. -/
def jsTrim (s : String) : String :=
  String.mk (((s.data.dropWhile Char.isWhitespace).reverse.dropWhile Char.isWhitespace).reverse)

/-- node `path.basename`, as used on the forward-slash paths the source
builds. -/
def basename (s : String) : String :=
  (s.splitOn "/").getLastD s

/-- A thrown JavaScript exception.  `typeError` models a `TypeError`
raised by calling or dereferencing `undefined`; `jsError` models an
explicitly constructed `new Error(message)`. -/
inductive JsError where
  | typeError (msg : String)
  | jsError (msg : String)
deriving DecidableEq, Repr

/-- Message of a thrown error (`error.message`). -/
def JsError.message : JsError → String
  | .typeError m => m
  | .jsError m => m

/-! ## Data model shared by the tester and validator

These mirror the record shapes produced by MCP-1 (execution records),
MCP-2 (test records) and read by MCP-4.  Optional JavaScript fields are
`Option`; the array fields `filesCreated`/`filesModified` are plain
lists, as every execution record produced by the system carries them. -/

/-- `deliverables.dependencyCheck` as read by `validateAnalysis`
(mcp-4-validator.js lines 111, 132-138). -/
structure DependencyCheck where
  missing : List String := []
deriving DecidableEq, Repr

/-- `deliverables.errorAnalysis` as read by `validateInvestigation`
(mcp-4-validator.js lines 219-224). -/
structure ErrorAnalysis where
  stackTrace : Option String := none
  errorMessage : Option String := none
deriving DecidableEq, Repr

/-- The kind-specific deliverables bag.  Payloads whose internal
structure the validator never inspects are kept as `Option String`
(presence is all that the `!== undefined` checks observe).  A key that
is absent or has an `undefined` value in JavaScript is `none`; `null`
values (which only `validateDeliverables` would distinguish) are not
representable and are noted there. -/
structure Deliverables where
  requirements : Option String := none
  dependencyCheck : Option DependencyCheck := none
  fileStructure : Option String := none
  errorAnalysis : Option ErrorAnalysis := none
  reproduction : Option String := none
  rootCause : Option String := none
  proposedSolution : Option String := none
deriving DecidableEq, Repr

/-- One entry of `executionResult.logs` (mcp-4-validator.js line 535). -/
structure LogEntry where
  level : String
  message : String := ""
deriving DecidableEq, Repr

/-- `executionResult.verificationResult` as read by
`verifyOriginalErrorFixed` (mcp-4-validator.js lines 717-723). -/
structure VerificationResult where
  errorResolved : Option Bool := none
  remainingErrors : Option (List String) := none
deriving DecidableEq, Repr

/-- ExecutionRecord: the output of MCP-1 running one step once, with
every field the tester or validator reads. -/
structure ExecResult where
  deliverables : Option Deliverables := none
  filesCreated : List String := []
  filesModified : List String := []
  commandsExecuted : List String := []
  fixApplied : Option Bool := none
  originalProblemSolved : Option Bool := none
  verificationResult : Option VerificationResult := none
  codeQualityImproved : Option Bool := none
  fileStructureOptimized : Option Bool := none
  testCasesCreated : Option Nat := none
  testReport : Option String := none
  documentationUpdated : Option Bool := none
  readmeUpdated : Option Bool := none
  codeCommentsUpdated : Option Bool := none
  examplesIncluded : Option Bool := none
  documentationFiles : Option (List String) := none
  validationPerformed : Option Bool := none
  criteriasMet : Option Bool := none
  validationReport : Option String := none
  completed : Option Bool := none
  objectivesAchieved : Option Bool := none
  executionTime : Option Nat := none
  memoryUsage : Option Nat := none
  logs : Option (List LogEntry) := none
  backupCreated : Option Bool := none
  functionsImplemented : Option (List String) := none
  testsCreated : Option (List String) := none
  dependenciesInstalled : Option (List String) := none
deriving DecidableEq, Repr

/-- `testResult.performance` (mcp-2-tester.js line 38, read at
mcp-4-validator.js line 293). -/
structure Performance where
  executionTime : Option Nat := none
deriving DecidableEq, Repr

/-- CheckRecord: the test result object built by `MCPTester.test`
(mcp-2-tester.js lines 28-41) and consumed by the validator and the
pipeline loop.  `testsPassed` is read by `validateTesting` but never set
by the tester, hence optional. -/
structure TestRecord where
  stepId : Nat := 0
  testType : String := ""
  startTime : String := ""
  hasErrors : Bool := false
  errors : List String := []
  warnings : List String := []
  passed : List String := []
  failed : List String := []
  coverage : Option Nat := none
  performance : Performance := {}
  recommendations : List String := []
  canProceed : Bool := false
  testsPassed : Option Bool := none
deriving DecidableEq, Repr

/-- A typed prerequisite item of a step, as read by
`checkRequirementFulfillment` (mcp-4-validator.js lines 693-712).  The
planner actually stores plain strings here, whose `type`/`value`/`name`
properties are all `undefined`; such items are `⟨none, none, none⟩`. -/
structure Requirement where
  type : Option String := none
  value : Option String := none
  name : Option String := none
deriving DecidableEq, Repr

/-- `step.originalError` as read by `validateFix`
(mcp-4-validator.js line 263). -/
structure OriginalError where
  message : String := ""
deriving DecidableEq, Repr

/-- The step fields the validator reads (duck-typed view of a step). -/
structure VStep where
  id : Nat
  title : String := ""
  type : String
  originalError : Option OriginalError := none
  requirements : Option (List Requirement) := none
  updateReadme : Option Bool := none
  minCoverage : Option Nat := none
  maxExecutionTime : Option Nat := none
deriving DecidableEq, Repr

/-- `validationResult.metrics` (mcp-4-validator.js lines 352-353, 661,
682). -/
structure Metrics where
  filesValidation : Option String := none
  requirementsFulfillment : Option String := none
  testCases : Option Nat := none
  coverage : Option Nat := none
deriving DecidableEq, Repr

/-- ValidationResult: output of `MCPValidator.validate`
(mcp-4-validator.js lines 24-37). -/
structure ValidationResult where
  stepId : Nat
  stepTitle : String
  timestamp : String
  approved : Bool
  confidence : String
  reasons : List String
  recommendations : List String
  nextStepApproved : Bool
  finalApproval : Bool
  qualityScore : Nat
  completeness : Nat
  metrics : Metrics
deriving DecidableEq, Repr

/-- Pure snapshot of the external effects the validator performs:
`npm list` probes, file existence, file size and file content reads. -/
structure Env where
  npmInstalled : String → Bool
  pathExists : String → Bool
  fileSize : String → Nat
  readFile : String → String

deriving instance DecidableEq for Except

/-- One weighted, optionally critical rubric criterion
(mcp-4-validator.js, the `criteria` literals).  `check` is the outcome
of evaluating the criterion closure: `Except.error` models a thrown
check, which `evaluateCriteria` isolates. -/
structure Criterion where
  name : String
  check : Except String Bool
  weight : Nat
  critical : Bool
deriving DecidableEq, Repr

/-! ## MCP-4 validator: rubrics (mcp-4-validator.js lines 99-465)

Each list mirrors the `criteria` literal of the corresponding
`validateXxx` method, in source order, with the closure bodies evaluated
against the record fields they read. -/

/-- Rubric of `validateAnalysis` (lines 102-127). -/
def analysisCriteria (er : ExecResult) (tr : TestRecord) : List Criterion :=
  [ { name := "Requisitos analisados",
      check := .ok (er.deliverables.bind Deliverables.requirements).isSome,
      weight := 30, critical := true },
    { name := "Dependências verificadas",
      check := .ok (er.deliverables.bind Deliverables.dependencyCheck).isSome,
      weight := 25, critical := true },
    { name := "Estrutura preparada",
      check := .ok (er.deliverables.bind Deliverables.fileStructure).isSome,
      weight := 20, critical := false },
    { name := "Execução sem erros",
      check := .ok (tr.errors.length == 0),
      weight := 25, critical := true } ]

/-- Rubric of `validateImplementation` (lines 147-172). -/
def implementationCriteria (er : ExecResult) (tr : TestRecord) : List Criterion :=
  [ { name := "Arquivos criados/modificados",
      check := .ok (decide (er.filesCreated.length + er.filesModified.length > 0)),
      weight := 25, critical := true },
    { name := "Sintaxe válida",
      check := .ok (!(tr.errors.any (fun e => jsIncludes e "syntax" || jsIncludes e "Syntax"))),
      weight := 30, critical := true },
    { name := "Funcionalidade básica",
      check := .ok (tr.passed.any (fun p => jsIncludes p "funcionalidade" || jsIncludes p "básica")),
      weight := 25, critical := false },
    { name := "Sem regressões",
      check := .ok (!(tr.warnings.any (fun w => jsIncludes w "regressão"))),
      weight := 20, critical := false } ]

/-- Rubric of `validateInvestigation` (lines 189-214). -/
def investigationCriteria (er : ExecResult) : List Criterion :=
  [ { name := "Análise de erros completa",
      check := .ok (er.deliverables.bind Deliverables.errorAnalysis).isSome,
      weight := 30, critical := true },
    { name := "Problema reproduzido",
      check := .ok (er.deliverables.bind Deliverables.reproduction).isSome,
      weight := 25, critical := true },
    { name := "Causa raiz identificada",
      check := .ok (er.deliverables.bind Deliverables.rootCause).isSome,
      weight := 25, critical := true },
    { name := "Solução proposta",
      check := .ok (er.deliverables.bind Deliverables.proposedSolution).isSome,
      weight := 20, critical := false } ]

/-- Rubric of `validateFix` (lines 233-258). -/
def fixCriteria (er : ExecResult) (tr : TestRecord) : List Criterion :=
  [ { name := "Correção aplicada",
      check := .ok (er.fixApplied == some true),
      weight := 40, critical := true },
    { name := "Testes passando",
      check := .ok (tr.failed.length == 0),
      weight := 30, critical := true },
    { name := "Problema original resolvido",
      check := .ok (er.originalProblemSolved == some true),
      weight := 20, critical := true },
    { name := "Sem efeitos colaterais",
      check := .ok (!(tr.warnings.any (fun w => jsIncludes w "regressão"))),
      weight := 10, critical := false } ]

/-- JavaScript `step.maxExecutionTime || 5000` (line 294): `0` is falsy. -/
def effectiveMaxExecutionTime (s : VStep) : Nat :=
  match s.maxExecutionTime with
  | some m => if m == 0 then 5000 else m
  | none => 5000

/-- Rubric of `validateRefactor` (lines 277-307).  The performance check
returns true when `performance.executionTime` is absent or `0` (falsy
guard in the source). -/
def refactorCriteria (s : VStep) (er : ExecResult) (tr : TestRecord) : List Criterion :=
  [ { name := "Funcionalidade preservada",
      check := .ok (tr.passed.any (fun p => jsIncludes p "regressão" && jsIncludes p "passaram")),
      weight := 40, critical := true },
    { name := "Código melhorado",
      check := .ok (er.codeQualityImproved == some true),
      weight := 25, critical := false },
    { name := "Performance mantida/melhorada",
      check := .ok (match tr.performance.executionTime with
        | some t => if t == 0 then true else decide (t ≤ effectiveMaxExecutionTime s)
        | none => true),
      weight := 20, critical := false },
    { name := "Estrutura de arquivos otimizada",
      check := .ok (er.fileStructureOptimized != some false),
      weight := 15, critical := false } ]

/-- JavaScript `step.minCoverage || 70` (line 328): `0` is falsy. -/
def effectiveMinCoverage (s : VStep) : Nat :=
  match s.minCoverage with
  | some m => if m == 0 then 70 else m
  | none => 70

/-- Rubric of `validateTesting` (lines 318-346).  An absent coverage is
`undefined` in JavaScript, and `undefined >= n` is false. -/
def testingCriteria (s : VStep) (er : ExecResult) (tr : TestRecord) : List Criterion :=
  [ { name := "Testes executados com sucesso",
      check := .ok (tr.testsPassed == some true),
      weight := 40, critical := true },
    { name := "Cobertura adequada",
      check := .ok (match tr.coverage with
        | some c => decide (c ≥ effectiveMinCoverage s)
        | none => false),
      weight := 30, critical := false },
    { name := "Casos de teste abrangentes",
      check := .ok (match er.testCasesCreated with
        | some n => decide (n > 0)
        | none => false),
      weight := 20, critical := false },
    { name := "Relatório de testes gerado",
      check := .ok er.testReport.isSome,
      weight := 10, critical := false } ]

/-- Rubric of `validateDocumentation` (lines 363-393). -/
def documentationCriteria (s : VStep) (er : ExecResult) : List Criterion :=
  [ { name := "Documentação criada/atualizada",
      check := .ok (er.documentationUpdated == some true),
      weight := 40, critical := true },
    { name := "README atualizado se necessário",
      check := .ok (if s.updateReadme == some true then er.readmeUpdated == some true else true),
      weight := 25, critical := false },
    { name := "Comentários no código adequados",
      check := .ok (er.codeCommentsUpdated != some false),
      weight := 20, critical := false },
    { name := "Exemplos de uso incluídos",
      check := .ok (er.examplesIncluded != some false),
      weight := 15, critical := false } ]

/-- Rubric of `validateValidation` (lines 407-426). -/
def validationCriteria (er : ExecResult) : List Criterion :=
  [ { name := "Validação executada",
      check := .ok (er.validationPerformed == some true),
      weight := 50, critical := true },
    { name := "Critérios atendidos",
      check := .ok (er.criteriasMet == some true),
      weight := 30, critical := true },
    { name := "Relatório de validação gerado",
      check := .ok er.validationReport.isSome,
      weight := 20, critical := false } ]

/-- Rubric of `validateGeneral` (lines 437-462). -/
def generalCriteria (er : ExecResult) (tr : TestRecord) : List Criterion :=
  [ { name := "Execução completada",
      check := .ok (er.completed == some true),
      weight := 40, critical := true },
    { name := "Sem erros críticos",
      check := .ok (tr.errors.length == 0),
      weight := 30, critical := true },
    { name := "Objetivos atingidos",
      check := .ok (er.objectivesAchieved != some false),
      weight := 20, critical := false },
    { name := "Deliverables criados",
      check := .ok er.deliverables.isSome,
      weight := 10, critical := false } ]

/-! ## MCP-4 validator: criteria evaluation (lines 470-514) -/

/-- The loop body of `evaluateCriteria` (lines 475-497), expressed as a
pure accumulator: the reason strings pushed, `totalWeight`,
`achievedWeight` and `criticalFailures`.  A throwing check skips the
`totalWeight` increment, exactly as the `try` block does. -/
def evalCriteriaAcc : List Criterion → List String × Nat × Nat × Nat
  | [] => ([], 0, 0, 0)
  | c :: rest =>
    let acc := evalCriteriaAcc rest
    match c.check with
    | .ok true =>
      (("✅ " ++ c.name) :: acc.1, c.weight + acc.2.1, c.weight + acc.2.2.1, acc.2.2.2)
    | .ok false =>
      (("❌ " ++ c.name) :: acc.1, c.weight + acc.2.1, acc.2.2.1,
        (if c.critical then 1 else 0) + acc.2.2.2)
    | .error m =>
      (("⚠️ Erro ao verificar " ++ c.name ++ ": " ++ m) :: acc.1, acc.2.1, acc.2.2.1,
        (if c.critical then 1 else 0) + acc.2.2.2)

/-- `evaluateCriteria` (lines 470-514): pushes one reason per criterion,
sets `qualityScore`, `completeness` and an interim `confidence`, and on
critical failures pushes a recommendation.  `completeness` counts the
criteria whose `✅`-reason occurs in the updated reason list, as the
source does after the loop. -/
def evaluateCriteria (criteria : List Criterion) (v : ValidationResult) : ValidationResult :=
  { v with
    reasons := v.reasons ++ (evalCriteriaAcc criteria).1,
    qualityScore :=
      if (evalCriteriaAcc criteria).2.1 > 0 then
        jsRound ((evalCriteriaAcc criteria).2.2.1 * 100) (evalCriteriaAcc criteria).2.1
      else 0,
    completeness :=
      if criteria.length > 0 then
        jsRound
          ((criteria.filter (fun c =>
            (v.reasons ++ (evalCriteriaAcc criteria).1).any
              (fun r => jsIncludes r ("✅ " ++ c.name)))).length * 100)
          criteria.length
      else 0,
    confidence :=
      if (evalCriteriaAcc criteria).2.2.2 > 0 then "low"
      else if (if (evalCriteriaAcc criteria).2.1 > 0 then
          jsRound ((evalCriteriaAcc criteria).2.2.1 * 100) (evalCriteriaAcc criteria).2.1
        else 0) ≥ 80 then "high"
      else if (if (evalCriteriaAcc criteria).2.1 > 0 then
          jsRound ((evalCriteriaAcc criteria).2.2.1 * 100) (evalCriteriaAcc criteria).2.1
        else 0) ≥ 60 then "medium"
      else "low",
    recommendations := v.recommendations ++
      (if (evalCriteriaAcc criteria).2.2.2 > 0 then
        ["Corrigir " ++ toString (evalCriteriaAcc criteria).2.2.2 ++ " falha(s) crítica(s)"]
      else []) }

/-! ## MCP-4 validator: per-kind validation (lines 99-465)

The source mutates the `validationResult` object field by field; each
method below performs the same net update in one record expression, with
the pushed strings computed by pure helper functions in source order. -/

/-- JavaScript truthiness of an optional string (absent or empty is
falsy). -/
def strTruthy : Option String → Bool
  | some s => !s.isEmpty
  | none => false

/-- Extra reason of `validateAnalysis` (lines 132-138): pushed when the
dependency check lists missing packages and `npm list` does not confirm
them all installed. -/
def analysisExtraReasons (env : Env) (er : ExecResult) : List String :=
  match er.deliverables.bind Deliverables.dependencyCheck with
  | some dc =>
    if dc.missing.length > 0 && !(dc.missing.all env.npmInstalled) then
      ["Dependências ainda não instaladas"]
    else []
  | none => []

/-- Recommendation matching `analysisExtraReasons`. -/
def analysisExtraRecs (env : Env) (er : ExecResult) : List String :=
  match er.deliverables.bind Deliverables.dependencyCheck with
  | some dc =>
    if dc.missing.length > 0 && !(dc.missing.all env.npmInstalled) then
      ["Instalar dependências faltantes antes de prosseguir"]
    else []
  | none => []

/-- `validateAnalysis` (lines 99-139). -/
def validateAnalysis (env : Env) (er : ExecResult) (tr : TestRecord)
    (v : ValidationResult) : ValidationResult :=
  let v1 := evaluateCriteria (analysisCriteria er tr) v
  { v1 with
    reasons := v1.reasons ++ analysisExtraReasons env er,
    recommendations := v1.recommendations ++ analysisExtraRecs env er }

/-- The loop of `validateCreatedFiles` (lines 641-663) as an
accumulator: reason strings in file order, and the count of files that
exist. -/
def createdFilesAcc (env : Env) : List String → List String × Nat
  | [] => ([], 0)
  | f :: rest =>
    let acc := createdFilesAcc env rest
    if env.pathExists f then
      ((if env.fileSize f == 0 then "⚠️ Arquivo vazio: " ++ basename f
        else "✅ Arquivo válido: " ++ basename f) :: acc.1, acc.2 + 1)
    else
      (("❌ Arquivo não encontrado: " ++ basename f) :: acc.1, acc.2)

/-- `validateCreatedFiles` (lines 641-663). -/
def validateCreatedFiles (env : Env) (files : List String)
    (v : ValidationResult) : ValidationResult :=
  { v with
    reasons := v.reasons ++ (createdFilesAcc env files).1,
    metrics :=
      if files.length > 0 then
        { v.metrics with
          filesValidation := some (toString (createdFilesAcc env files).2 ++ "/" ++ toString files.length) }
      else v.metrics }

/-- `checkRequirementFulfillment` (lines 693-712).  A requirement whose
`type` is absent or unrecognized counts as fulfilled (the `default`
branch). -/
def checkRequirementFulfillment (req : Requirement) (er : ExecResult) : Bool :=
  match req.type with
  | some t =>
    if t == "file" then
      match req.value with
      | some val => er.filesCreated.contains val || er.filesModified.contains val
      | none => false
    else if t == "function" then
      match er.functionsImplemented, req.value with
      | some l, some val => l.contains val
      | _, _ => false
    else if t == "test" then
      match er.testsCreated, req.value with
      | some l, some val => l.contains val
      | _, _ => false
    else if t == "dependency" then
      match er.dependenciesInstalled, req.value with
      | some l, some val => l.contains val
      | _, _ => false
    else true
  | none => true

/-- Display name of a requirement: an absent `name` prints as the
string `undefined` in the template literal. -/
def requirementName (req : Requirement) : String :=
  req.name.getD "undefined"

/-- The loop of `verifyRequirementsFulfillment` (lines 668-688) as an
accumulator: reason strings in order, and the fulfilled count. -/
def requirementsAcc (er : ExecResult) : List Requirement → List String × Nat
  | [] => ([], 0)
  | r :: rest =>
    let acc := requirementsAcc er rest
    if checkRequirementFulfillment r er then
      (("✅ Requisito atendido: " ++ requirementName r) :: acc.1, acc.2 + 1)
    else
      (("❌ Requisito não atendido: " ++ requirementName r) :: acc.1, acc.2)

/-- Reasons pushed by `verifyRequirementsFulfillment` (guarded by
`step.requirements && step.requirements.length > 0`). -/
def reqReasons (s : VStep) (er : ExecResult) : List String :=
  match s.requirements with
  | some reqs => if reqs.length > 0 then (requirementsAcc er reqs).1 else []
  | none => []

/-- Metrics update of `verifyRequirementsFulfillment`. -/
def reqMetrics (s : VStep) (er : ExecResult) (m : Metrics) : Metrics :=
  match s.requirements with
  | some reqs =>
    if reqs.length > 0 then
      { m with
        requirementsFulfillment := some (toString (requirementsAcc er reqs).2 ++ "/" ++ toString reqs.length) }
    else m
  | none => m

/-- Recommendation pushed by `verifyRequirementsFulfillment` when not
all requirements are fulfilled. -/
def reqRecs (s : VStep) (er : ExecResult) : List String :=
  match s.requirements with
  | some reqs =>
    if reqs.length > 0 && (requirementsAcc er reqs).2 < reqs.length then
      ["Atender todos os requisitos especificados"]
    else []
  | none => []

/-- `validateImplementation` (lines 144-181): rubric, created-file
validation, requirements fulfillment. -/
def validateImplementation (env : Env) (s : VStep) (er : ExecResult) (tr : TestRecord)
    (v : ValidationResult) : ValidationResult :=
  let v1 := validateCreatedFiles env er.filesCreated
    (evaluateCriteria (implementationCriteria er tr) v)
  { v1 with
    reasons := v1.reasons ++ reqReasons s er,
    metrics := reqMetrics s er v1.metrics,
    recommendations := v1.recommendations ++ reqRecs s er }

/-- Extra reason of `validateInvestigation` (lines 219-224): pushed when
the error analysis has neither a (truthy) stack trace nor a (truthy)
error message. -/
def investigationExtraReasons (er : ExecResult) : List String :=
  match er.deliverables.bind Deliverables.errorAnalysis with
  | some ea =>
    if !(strTruthy ea.stackTrace) && !(strTruthy ea.errorMessage) then
      ["Análise de erro incompleta"]
    else []
  | none => []

/-- `validateInvestigation` (lines 186-225). -/
def validateInvestigation (er : ExecResult) (v : ValidationResult) : ValidationResult :=
  let v1 := evaluateCriteria (investigationCriteria er) v
  { v1 with reasons := v1.reasons ++ investigationExtraReasons er }

/-- `verifyOriginalErrorFixed` (lines 717-723), with the verification
result known present (the caller guards on it). -/
def verifyOriginalErrorFixed (oe : OriginalError) (vr : VerificationResult) : Bool :=
  vr.errorResolved == some true ||
    !(match vr.remainingErrors with
      | some l => l.contains oe.message
      | none => false)

/-- Extra reason of `validateFix` (lines 263-268): pushed when both
`step.originalError` and `executionResult.verificationResult` are
present and the original error is not verified fixed. -/
def fixExtraReasons (s : VStep) (er : ExecResult) : List String :=
  match s.originalError, er.verificationResult with
  | some oe, some vr =>
    if !(verifyOriginalErrorFixed oe vr) then
      ["Problema original ainda não foi resolvido"]
    else []
  | _, _ => []

/-- `validateFix` (lines 230-269). -/
def validateFix (s : VStep) (er : ExecResult) (tr : TestRecord)
    (v : ValidationResult) : ValidationResult :=
  let v1 := evaluateCriteria (fixCriteria er tr) v
  { v1 with reasons := v1.reasons ++ fixExtraReasons s er }

/-- `validateRefactor` (lines 274-310). -/
def validateRefactor (s : VStep) (er : ExecResult) (tr : TestRecord)
    (v : ValidationResult) : ValidationResult :=
  evaluateCriteria (refactorCriteria s er tr) v

/-- Metrics update of `validateTesting` (lines 351-354). -/
def testingMetrics (er : ExecResult) (tr : TestRecord) (m : Metrics) : Metrics :=
  match er.testCasesCreated with
  | some n => if n > 0 then { m with testCases := some n, coverage := tr.coverage } else m
  | none => m

/-- `validateTesting` (lines 315-355). -/
def validateTesting (s : VStep) (er : ExecResult) (tr : TestRecord)
    (v : ValidationResult) : ValidationResult :=
  let v1 := evaluateCriteria (testingCriteria s er tr) v
  { v1 with metrics := testingMetrics er tr v1.metrics }

/-- The loop of `validateDocumentationQuality` (lines 728-747): one
reason per existing documentation file, judged on title, examples and
length of its content. -/
def docFilesAcc (env : Env) : List String → List String
  | [] => []
  | f :: rest =>
    (if env.pathExists f then
      [if (jsIncludes (env.readFile f) "#" || jsIncludes (env.readFile f) "<h") &&
          (jsIncludes (env.readFile f) "```" || jsIncludes (env.readFile f) "exemplo") &&
          (env.readFile f).length > 100 then
        "✅ Documentação de qualidade: " ++ basename f
      else "⚠️ Documentação básica: " ++ basename f]
    else []) ++ docFilesAcc env rest

/-- Reasons pushed by `validateDocumentationQuality`, guarded by
`executionResult.documentationFiles`. -/
def docQualityReasons (env : Env) (er : ExecResult) : List String :=
  match er.documentationFiles with
  | some files => docFilesAcc env files
  | none => []

/-- `validateDocumentation` (lines 360-399). -/
def validateDocumentation (env : Env) (s : VStep) (er : ExecResult)
    (v : ValidationResult) : ValidationResult :=
  let v1 := evaluateCriteria (documentationCriteria s er) v
  { v1 with reasons := v1.reasons ++ docQualityReasons env er }

/-- `validateValidation` (lines 404-429). -/
def validateValidation (er : ExecResult) (v : ValidationResult) : ValidationResult :=
  evaluateCriteria (validationCriteria er) v

/-- `validateGeneral` (lines 434-465). -/
def validateGeneral (er : ExecResult) (tr : TestRecord)
    (v : ValidationResult) : ValidationResult :=
  evaluateCriteria (generalCriteria er tr) v

/-- Type dispatch of `validate` (lines 40-67). -/
def validateByType (env : Env) (s : VStep) (er : ExecResult) (tr : TestRecord)
    (v : ValidationResult) : ValidationResult :=
  if s.type == "analysis" then validateAnalysis env er tr v
  else if s.type == "implementation" then validateImplementation env s er tr v
  else if s.type == "investigation" then validateInvestigation er v
  else if s.type == "fix" then validateFix s er tr v
  else if s.type == "refactor" then validateRefactor s er tr v
  else if s.type == "testing" then validateTesting s er tr v
  else if s.type == "documentation" then validateDocumentation env s er v
  else if s.type == "validation" then validateValidation er v
  else validateGeneral er tr v

/-! ## MCP-4 validator: general validation and approval (lines 519-618) -/

/-- `validateDeliverables` (lines 752-771): true when the deliverables
object has at least one key.  JavaScript `null` values, which would also
fail the check, are not representable in this embedding (absent and
`undefined` keys are both `none`). -/
def validateDeliverables (d : Deliverables) : Bool :=
  [d.requirements.isSome, d.dependencyCheck.isSome, d.fileStructure.isSome,
   d.errorAnalysis.isSome, d.reproduction.isSome, d.rootCause.isSome,
   d.proposedSolution.isSome].any id

/-- Reasons pushed by `performGeneralValidation` (lines 519-555), in
source order. -/
def generalValidationReasons (er : ExecResult) : List String :=
  (if (match er.executionTime with | some t => decide (t > 300000) | none => false) then
    ["⚠️ Tempo de execução muito longo"] else []) ++
  (if (match er.memoryUsage with | some m => decide (m > 512) | none => false) then
    ["⚠️ Alto uso de memória"] else []) ++
  (if (match er.logs with | some ls => ls.any (fun l => l.level == "error") | none => false) then
    ["⚠️ Logs de erro encontrados"] else []) ++
  (if (match er.deliverables with | some d => !(validateDeliverables d) | none => false) then
    ["❌ Deliverables inválidos"] else []) ++
  (if er.filesModified.length > 0 && !(er.backupCreated == some true) then
    ["⚠️ Backup não foi criado antes das modificações"] else [])

/-- Recommendations pushed by `performGeneralValidation`, in source
order (the invalid-deliverables branch pushes no recommendation). -/
def generalValidationRecs (er : ExecResult) : List String :=
  (if (match er.executionTime with | some t => decide (t > 300000) | none => false) then
    ["Otimizar tempo de execução"] else []) ++
  (if (match er.memoryUsage with | some m => decide (m > 512) | none => false) then
    ["Otimizar uso de memória"] else []) ++
  (if (match er.logs with | some ls => ls.any (fun l => l.level == "error") | none => false) then
    ["Revisar e resolver erros nos logs"] else []) ++
  (if er.filesModified.length > 0 && !(er.backupCreated == some true) then
    ["Criar backup antes de modificar arquivos"] else [])

/-- `performGeneralValidation` (lines 519-555). -/
def performGeneralValidation (er : ExecResult) (v : ValidationResult) : ValidationResult :=
  { v with
    reasons := v.reasons ++ generalValidationReasons er,
    recommendations := v.recommendations ++ generalValidationRecs er }

/-- `calculateFinalApproval` (lines 560-586).  Note the source decides
`hasNoCriticalFailures` by scanning the reason strings for both `❌`
and `CRÍTICO`; `evaluateCriteria` pushes plain `❌ name` reasons, never
a `CRÍTICO` marker (only the tester writes `CRÍTICO: ...`, into the
test record errors, a different list). -/
def calculateFinalApproval (v : ValidationResult) : ValidationResult :=
  { v with
    approved :=
      !(v.reasons.any (fun r => jsIncludes r "❌" && jsIncludes r "CRÍTICO")) &&
        v.qualityScore ≥ 70,
    finalApproval :=
      (!(v.reasons.any (fun r => jsIncludes r "❌" && jsIncludes r "CRÍTICO")) &&
        v.qualityScore ≥ 70) &&
      (v.confidence == "high" || (v.confidence == "medium" && v.qualityScore ≥ 80)),
    confidence :=
      if v.qualityScore ≥ 90 &&
          !(v.reasons.any (fun r => jsIncludes r "❌" && jsIncludes r "CRÍTICO")) then "high"
      else if v.qualityScore ≥ 70 &&
          !(v.reasons.any (fun r => jsIncludes r "❌" && jsIncludes r "CRÍTICO")) then "medium"
      else "low",
    recommendations := v.recommendations ++
      (if v.qualityScore < 70 then ["Melhorar qualidade geral antes de prosseguir"] else []) ++
      (if v.completeness < 80 then ["Completar tarefas pendentes"] else []) }

/-- The narrowed `nextStepApproved` of `checkNextStepReadiness`
(lines 591-613).  The fix case searches the reasons for the lowercase
substring `problema original`. -/
def nextStepApprovedFor (s : VStep) (v : ValidationResult) : Bool :=
  if s.type == "analysis" then v.approved && v.qualityScore ≥ 80
  else if s.type == "implementation" then
    v.approved && v.reasons.any (fun r => jsIncludes r "✅" && jsIncludes r "Funcionalidade")
  else if s.type == "fix" then
    v.approved && v.reasons.any (fun r => jsIncludes r "✅" && jsIncludes r "problema original")
  else v.approved

/-- `checkNextStepReadiness` (lines 591-618). -/
def checkNextStepReadiness (s : VStep) (v : ValidationResult) : ValidationResult :=
  { v with
    nextStepApproved := nextStepApprovedFor s v,
    recommendations := v.recommendations ++
      (if !(nextStepApprovedFor s v) then ["Completar etapa atual antes de prosseguir"] else []) }

/-- The fresh validation result literal of `validate` (lines 24-37);
`now` is the `new Date().toISOString()` value. -/
def initValidation (s : VStep) (now : String) : ValidationResult :=
  { stepId := s.id, stepTitle := s.title, timestamp := now, approved := false,
    confidence := "low", reasons := [], recommendations := [],
    nextStepApproved := false, finalApproval := false, qualityScore := 0,
    completeness := 0, metrics := {} }

/-- `MCPValidator.validate` (lines 20-92): type-specific validation,
general validation, final approval, next-step readiness.  The push onto
`validationHistory` does not influence the returned value and is not
modelled. -/
def validate (env : Env) (s : VStep) (er : ExecResult) (tr : TestRecord)
    (now : String) : ValidationResult :=
  checkNextStepReadiness s
    (calculateFinalApproval
      (performGeneralValidation er
        (validateByType env s er tr (initValidation s now))))

/-! ## MCP-2 tester: test suite runner (mcp-2-tester.js lines 306-334)
and final error computation (lines 73-77) -/

/-- One named check of a battery passed to `runTestSuite`; `test` is the
outcome of evaluating its closure (`Except.error` models a throwing
check, isolated by the runner). -/
structure TCheck where
  name : String
  test : Except String Bool
  critical : Bool
deriving DecidableEq, Repr

/-- One iteration of the `runTestSuite` loop (lines 309-333): a passing
check is appended to `passed`; a failing check is appended to `failed`
and, when critical, `CRÍTICO: name` is appended to `errors` (setting
`hasErrors`), otherwise the name is appended to `warnings`; a throwing
check is appended to `failed` and its message to `errors`. -/
def applyCheck (c : TCheck) (tr : TestRecord) : TestRecord :=
  match c.test with
  | .ok true => { tr with passed := tr.passed ++ [c.name] }
  | .ok false =>
    if c.critical then
      { tr with failed := tr.failed ++ [c.name],
                errors := tr.errors ++ ["CRÍTICO: " ++ c.name], hasErrors := true }
    else
      { tr with failed := tr.failed ++ [c.name], warnings := tr.warnings ++ [c.name] }
  | .error m =>
    { tr with failed := tr.failed ++ [c.name],
              errors := tr.errors ++ ["Erro em " ++ c.name ++ ": " ++ m], hasErrors := true }

/-- `runTestSuite` (lines 308-334): applies each check of the battery in
order to the accumulating test record. -/
def runTestSuite : List TCheck → TestRecord → TestRecord
  | [], tr => tr
  | c :: rest, tr => runTestSuite rest (applyCheck c tr)

/-- The final computation of `MCPTester.test` (lines 74-75):
`hasErrors` is recomputed from the error and failed lists and
`canProceed` is its negation.  The `endTime`/`duration` bookkeeping of
lines 76-77 does not influence these flags. -/
def testFinalize (tr : TestRecord) : TestRecord :=
  { tr with
    hasErrors := tr.errors.length > 0 || tr.failed.length > 0,
    canProceed := !(tr.errors.length > 0 || tr.failed.length > 0) }

/-! ## MCP-2 tester: the two `diagnose` definitions
(mcp-2-tester.js lines 99-140 and 884-970)

The class body defines `diagnose` twice; in JavaScript the second
definition replaces the first on the prototype, so every call resolves
to the detailed-diagnosis method of lines 884-970 with parameter list
`(step, executionResult, testResult)`.  The orchestrator calls
`this.tester.diagnose(testResult.errors)` with a single argument. -/

/-- One issue entry of the second `diagnose` result. -/
structure DiagIssue where
  itype : String
  count : Option Nat := none
  details : List String := []
  detail : Option String := none
deriving DecidableEq, Repr

/-- The diagnosis object literal of the second `diagnose` definition
(lines 887-893).  It has no `canAutoFix`, `suggestedFix`, `manualSteps`
or `errors` field. -/
structure Diagnosis where
  timestamp : String
  step : Option Nat
  issues : List DiagIssue
  recommendations : List String
  severity : String
deriving DecidableEq, Repr

/-- The duck-typed view of whatever is passed as the `step` parameter of
the second `diagnose`: only `id` and `type` are read.  When the
orchestrator passes the error array, both are `undefined`. -/
structure DiagStepArg where
  id : Option Nat := none
  type : Option String := none
deriving DecidableEq, Repr

/-- The critical-error filter of the second `diagnose` (lines 896-900). -/
def criticalErrorsOf (tr : TestRecord) : List String :=
  tr.errors.filter (fun e =>
    jsIncludes e "CRÍTICO" || jsIncludes e "Erro de sintaxe" ||
      jsIncludes e "Testes unitários falharam")

/-- The second (effective) `diagnose` definition (lines 884-970).  Its
third parameter is dereferenced (`testResult.errors`) before anything is
returned, so a call without it raises a `TypeError`; likewise the
implementation branch dereferences `executionResult.filesCreated`.
Every other computation is pure, so hoisting the two dereference
failures to the front preserves the observable result. -/
def diagnoseSecond (now : String) (step : DiagStepArg) (executionResult : Option ExecResult)
    (testResult : Option TestRecord) : Except JsError Diagnosis :=
  match testResult with
  | none => .error (.typeError "Cannot read properties of undefined (reading errors)")
  | some tr =>
    if step.type == some "implementation" && executionResult.isNone then
      .error (.typeError "Cannot read properties of undefined (reading filesCreated)")
    else
      let critical := criticalErrorsOf tr
      let issues1 : List DiagIssue :=
        if critical.length > 0 then
          [{ itype := "critical", count := some critical.length, details := critical }]
        else []
      let recs1 : List String :=
        if critical.length > 0 then ["Corrigir erros críticos antes de prosseguir"] else []
      let sev1 : String := if critical.length > 0 then "high" else "low"
      let issues2 : List DiagIssue :=
        if tr.warnings.length > 0 then
          [{ itype := "warning", count := some tr.warnings.length, details := tr.warnings }]
        else []
      let recs2 : List String :=
        if tr.warnings.length > 0 then ["Revisar warnings para melhorar qualidade"] else []
      let sev2 : String :=
        if tr.warnings.length > 0 then (if sev1 == "low" then "medium" else sev1) else sev1
      let issues3 : List DiagIssue :=
        if (match tr.performance.executionTime with | some t => decide (t > 5000) | none => false) then
          [{ itype := "performance",
             detail := some ("Execução lenta: " ++
               toString (tr.performance.executionTime.getD 0) ++ "ms") }]
        else []
      let recs3 : List String :=
        if (match tr.performance.executionTime with | some t => decide (t > 5000) | none => false) then
          ["Otimizar performance da implementação"]
        else []
      let issues4 : List DiagIssue :=
        if (match tr.coverage with | some c => !(c == 0) && c < 70 | none => false) then
          [{ itype := "coverage",
             detail := some ("Cobertura baixa: " ++ toString (tr.coverage.getD 0) ++ "%") }]
        else []
      let recs4 : List String :=
        if (match tr.coverage with | some c => !(c == 0) && c < 70 | none => false) then
          ["Aumentar cobertura de testes"]
        else []
      let issues5 : List DiagIssue :=
        if step.type == some "implementation" then
          (match executionResult with
           | some er =>
             if er.filesCreated.length == 0 then
               [{ itype := "implementation", detail := some "Nenhum arquivo foi criado" }]
             else []
           | none => [])
        else if step.type == some "testing" then
          (if tr.failed.length > tr.passed.length then
            [{ itype := "testing", detail := some "Mais testes falharam do que passaram" }]
          else [])
        else []
      let recs5 : List String :=
        if step.type == some "implementation" then
          (match executionResult with
           | some er =>
             if er.filesCreated.length == 0 then
               ["Verificar se a implementação foi executada corretamente"]
             else []
           | none => [])
        else if step.type == some "testing" then
          (if tr.failed.length > tr.passed.length then
            ["Revisar e corrigir testes falhados"]
          else [])
        else []
      .ok { timestamp := now, step := step.id,
            issues := issues1 ++ issues2 ++ issues3 ++ issues4 ++ issues5,
            recommendations := recs1 ++ recs2 ++ recs3 ++ recs4 ++ recs5,
            severity := sev2 }

/-- The tester method call `diagnose(errors)` as the orchestrator issues
it (orchestrator.js line 554): the error array binds to the `step`
parameter (whose `id` and `type` are then `undefined`) and
`executionResult`/`testResult` are `undefined`, so the call raises a
`TypeError` before any diagnosis is produced.  The timestamp argument is
irrelevant because no result is returned. -/
def diagnoseAsCalled (_errors : List String) : Except JsError Diagnosis :=
  diagnoseSecond "" { id := none, type := none } none none

/-- The first, shadowed `diagnose` definition (lines 99-140).  Even if
it were reachable, its body calls `this.categorizeErrors` — a method
that is defined nowhere in `MCPTester` (nor are `identifyRootCauses`,
`analyzeAutoFixPossibility` and `generateManualSteps`) — so it raises a
`TypeError`, which its own `catch` block rethrows. -/
def diagnoseShadowed (_errors : List String) : Except JsError Diagnosis :=
  .error (.typeError "this.categorizeErrors is not a function")

/-! ## Orchestrator: step catalog (orchestrator.js lines 470-524 and
688-793) -/

/-- A planner-generated step (the object literals of `createTaskSteps`
and the `createXxxSteps` helpers).  Here `requirements` and
`deliverables` are the plain string lists the planner stores. -/
structure OStep where
  id : Nat
  title : String
  description : String
  type : String
  language : String
  estimatedTime : String
  requirements : List String
  deliverables : List String
  status : String
  completedAt : Option String := none
deriving DecidableEq, Repr

/-- The leading analysis step (lines 477-487).  `analysis.prerequisites`
is initialized to `[]` (line 434) and never filled before this literal
is built. -/
def analysisStepLit (taskType lang : String) : OStep :=
  { id := 1, title := "Análise e Preparação",
    description := "Analisar requisitos e preparar ambiente para " ++ taskType,
    type := "analysis", language := lang, estimatedTime := "5-10 min",
    requirements := [],
    deliverables := ["Plano de execução", "Arquivos identificados"],
    status := "pending" }

/-- `createCreationSteps` (lines 688-702). -/
def createCreationSteps (lang : String) : List OStep :=
  [ { id := 2, title := "Implementação",
      description := "Criar/implementar funcionalidade em " ++ lang,
      type := "implementation", language := lang, estimatedTime := "15-30 min",
      requirements := ["Plano aprovado"], deliverables := ["Código implementado"],
      status := "pending" } ]

/-- `createBugfixSteps` (lines 704-729). -/
def createBugfixSteps (lang : String) : List OStep :=
  [ { id := 2, title := "Reprodução do Bug",
      description := "Reproduzir e identificar causa raiz",
      type := "investigation", language := lang, estimatedTime := "10-20 min",
      requirements := ["Descrição do problema"], deliverables := ["Causa raiz identificada"],
      status := "pending" },
    { id := 3, title := "Correção",
      description := "Aplicar correção mínima necessária",
      type := "fix", language := lang, estimatedTime := "5-15 min",
      requirements := ["Causa raiz conhecida"], deliverables := ["Bug corrigido"],
      status := "pending" } ]

/-- `createImprovementSteps` (lines 731-745). -/
def createImprovementSteps (lang : String) : List OStep :=
  [ { id := 2, title := "Refatoração",
      description := "Melhorar código mantendo funcionalidade",
      type := "refactor", language := lang, estimatedTime := "20-40 min",
      requirements := ["Testes existentes"], deliverables := ["Código melhorado"],
      status := "pending" } ]

/-- `createTestingSteps` (lines 747-761). -/
def createTestingSteps (lang : String) : List OStep :=
  [ { id := 2, title := "Implementação de Testes",
      description := "Criar testes em " ++ lang,
      type := "testing", language := lang, estimatedTime := "15-30 min",
      requirements := ["Código a ser testado"], deliverables := ["Testes implementados"],
      status := "pending" } ]

/-- `createDocumentationSteps` (lines 763-777); note the hardcoded
Markdown language. -/
def createDocumentationSteps (_lang : String) : List OStep :=
  [ { id := 2, title := "Escrita de Documentação",
      description := "Criar/atualizar documentação",
      type := "documentation", language := "Markdown", estimatedTime := "10-20 min",
      requirements := ["Funcionalidade implementada"], deliverables := ["Documentação atualizada"],
      status := "pending" } ]

/-- `createGeneralSteps` (lines 779-793). -/
def createGeneralSteps (lang : String) : List OStep :=
  [ { id := 2, title := "Implementação Geral",
      description := "Executar tarefa solicitada",
      type := "general", language := lang, estimatedTime := "15-30 min",
      requirements := ["Requisitos definidos"], deliverables := ["Tarefa executada"],
      status := "pending" } ]

/-- The `switch (analysis.taskType)` of `createTaskSteps`
(lines 490-508). -/
def middleSteps (taskType lang : String) : List OStep :=
  if taskType == "creation" then createCreationSteps lang
  else if taskType == "bugfix" then createBugfixSteps lang
  else if taskType == "improvement" then createImprovementSteps lang
  else if taskType == "testing" then createTestingSteps lang
  else if taskType == "documentation" then createDocumentationSteps lang
  else createGeneralSteps lang

/-- The closing validation step (lines 511-521); its id is
`steps.length + 1` at push time. -/
def validationStepLit (idv : Nat) (lang : String) : OStep :=
  { id := idv, title := "Validação e Finalização",
    description := "Validar resultado final e documentar mudanças",
    type := "validation", language := lang, estimatedTime := "5-10 min",
    requirements := ["Todos os testes passando"],
    deliverables := ["Documentação atualizada", "Testes validados"],
    status := "pending" }

/-- `createTaskSteps` (lines 470-524): analysis step, kind-specific
middle block, validation step. -/
def createTaskSteps (taskType lang : String) : List OStep :=
  (analysisStepLit taskType lang :: middleSteps taskType lang) ++
    [validationStepLit ((analysisStepLit taskType lang :: middleSteps taskType lang).length + 1) lang]

/-! ## Orchestrator: task intake and planning (lines 351-465) -/

/-- A task as built by `requestTaskFromUser` (lines 379-387). -/
structure Task where
  id : String := ""
  description : String
  priority : String := "Média"
  autoFix : Bool := true
  createdAt : String := ""
  status : String := "pending"
deriving DecidableEq, Repr

/-- The `validate` callback of the interactive description prompt
(line 360): accepted only when the trimmed input has more than 10
characters; otherwise inquirer re-prompts with a message (no exception,
no `InvalidTask` error). -/
def promptValidateDescription (input : String) : Bool :=
  (jsTrim input).length > 10

/-- The keyword classification of `analyzeTaskInContext`
(lines 439-453), which would map a lowercased description to one of the
six task classes.  This code is unreachable: the method throws before
reaching it (see `identifyTaskTypeCall`). -/
def classifyByKeywords (description : String) : String :=
  let kw := description.toLower
  if jsIncludes kw "criar" || jsIncludes kw "adicionar" || jsIncludes kw "implementar" then
    "creation"
  else if jsIncludes kw "corrigir" || jsIncludes kw "bug" || jsIncludes kw "erro" then
    "bugfix"
  else if jsIncludes kw "melhorar" || jsIncludes kw "otimizar" || jsIncludes kw "refatorar" then
    "improvement"
  else if jsIncludes kw "testar" || jsIncludes kw "teste" then "testing"
  else if jsIncludes kw "documentar" || jsIncludes kw "documentação" then "documentation"
  else "general"

/-- Line 429: `analyzeTaskInContext` builds its `analysis` literal with
`taskType: this.identifyTaskType(task.description)`, but no
`identifyTaskType` method exists anywhere in `MCPOrchestrator`, so the
call raises a `TypeError` for every task. -/
def identifyTaskTypeCall : Except JsError String :=
  .error (.typeError "this.identifyTaskType is not a function")

/-- `analyzeTaskInContext` (lines 424-465): returns the task type the
keyword rules would produce, but only after the initial literal is
built, which always throws. -/
def analyzeTaskInContext (task : Task) : Except JsError String :=
  match identifyTaskTypeCall with
  | .error e => .error e
  | .ok _ => .ok (classifyByKeywords task.description)

/-- Line 408: `orchestrateTask` calls `this.validateTaskSteps()`, which
is also defined nowhere in the class. -/
def validateTaskStepsCall : Except JsError Unit :=
  .error (.typeError "this.validateTaskSteps is not a function")

/-- `orchestrateTask` (lines 396-419): analyze the task in context,
create the step list, validate it.  Its `try`/`catch` logs and rethrows,
so errors propagate unchanged. -/
def orchestrateTask (task : Task) (lang : String) : Except JsError (List OStep) :=
  match analyzeTaskInContext task with
  | .error e => .error e
  | .ok taskType =>
    let steps := createTaskSteps taskType lang
    match validateTaskStepsCall with
    | .error e => .error e
    | .ok _ => .ok steps

/-! ## Orchestrator: execution loop (orchestrator.js lines 529-608)

The loop drives the collaborating MCPs; they are modelled as a record of
oracle functions so that the loop's own control flow is what is being
verified.  `MCPTester.diagnose` is the one collaborator call whose
behavior is fixed by the sources in src/ (see `diagnoseAsCalled`), so
the loop model calls it directly. -/

/-- The collaborating services invoked by one attempt:
`analyzer.execute`, `tester.test`, `documentor.document` and
`validator.validate`. -/
structure Collaborators where
  execute : OStep → Except JsError ExecResult
  test : OStep → ExecResult → Except JsError TestRecord
  document : OStep → ExecResult → TestRecord → Except JsError Unit
  validateStep : OStep → ExecResult → TestRecord → Except JsError ValidationResult

/-- Line 603: the retry branch awaits `this.sleep(2000)`.  The class
defines a `delay(ms)` utility (lines 841-843) but no `sleep` method, so
the call raises `TypeError: this.sleep is not a function`, which
propagates out of the `catch` block and aborts the whole loop. -/
def sleepCall (_ms : Nat) : Except JsError Unit :=
  .error (.typeError "this.sleep is not a function")

/-- The `delay(ms)` utility that actually exists (lines 841-843); it
always resolves. -/
def delay (_ms : Nat) : Except JsError Unit :=
  .ok ()

/-- The `catch` block of the attempt loop (lines 594-605), entered with
the retry counter already holding the pre-increment value `retryCount`:
after `retryCount++`, either the ceiling is reached and a terminal error
is thrown, or the loop pauses before re-attempting — which, because of
`sleepCall`, itself throws. -/
def retryBranch (e : JsError) (retryCount maxRetries : Nat) : Except JsError Unit :=
  if retryCount + 1 ≥ maxRetries then
    .error (.jsError ("Não foi possível completar a etapa: " ++ e.message))
  else
    sleepCall 2000

/-- Outcome of the `try` block of one attempt (lines 542-592):
either the validation approved the step, or an exception was caught. -/
inductive AttemptOutcome where
  | approved
  | caught (e : JsError)
deriving DecidableEq, Repr

/-- One pass through the `try` block (lines 542-592): execute, test,
on test errors diagnose (which, per `diagnoseAsCalled`, always throws —
and even if it returned, the returned object has no `canAutoFix`
property, so the auto-fix guard would be falsy and line 563 would throw
a `TypeError` joining the missing `diagnostic.errors`), otherwise
document, validate, and throw on a rejected validation. -/
def attemptStep (col : Collaborators) (step : OStep) : AttemptOutcome :=
  match col.execute step with
  | .error e => .caught e
  | .ok er =>
    match col.test step er with
    | .error e => .caught e
    | .ok tr =>
      if tr.hasErrors then
        match diagnoseAsCalled tr.errors with
        | .error e => .caught e
        | .ok _ => .caught (.typeError "Cannot read properties of undefined (reading join)")
      else
        match col.document step er tr with
        | .error e => .caught e
        | .ok _ =>
          match col.validateStep step er tr with
          | .error e => .caught e
          | .ok vr =>
            if vr.approved then .approved
            else .caught (.jsError ("Validação falhou: " ++ joinComma vr.reasons))

/-- Result of the inner `while (!stepCompleted && retryCount <
maxRetries)` loop for one step.  `execCount` counts invocations of the
executor (one per attempt).  `fellThrough` is the exit with the retry
counter exhausted but no exception (only reachable through the auto-fix
`continue` path, dead in this code base). -/
inductive InnerOutcome where
  | approvedStep (execCount : Nat)
  | fellThrough (execCount : Nat)
  | threw (e : JsError) (execCount : Nat)
deriving DecidableEq, Repr

/-- The inner attempt loop (lines 541-606).  `gas` is the loop variant
`maxRetries - retryCount`, so `gas = 0` is exactly the exhausted guard;
each caught attempt increments `retryCount` and decrements `gas`. -/
def innerLoop (col : Collaborators) (maxRetries : Nat) (step : OStep) :
    Nat → Nat → Nat → InnerOutcome
  | _retryCount, 0, execCount => .fellThrough execCount
  | retryCount, gas + 1, execCount =>
    match attemptStep col step with
    | .approved => .approvedStep (execCount + 1)
    | .caught e =>
      match retryBranch e retryCount maxRetries with
      | .error e2 => .threw e2 (execCount + 1)
      | .ok _ => innerLoop col maxRetries step (retryCount + 1) gas (execCount + 1)

/-- A step marked completed on approval (lines 577-578). -/
def markCompleted (s : OStep) (now : String) : OStep :=
  { s with status := "completed", completedAt := some now }

/-- Result of the outer loop: `finished` is the normal exit of
`while (currentStepIndex < taskSteps.length)`, `threw` a propagated
exception, `fuelOut` an execution that is still running after `fuel`
outer iterations. -/
inductive OuterOutcome where
  | finished (steps : List OStep) (execCount : Nat)
  | threw (e : JsError) (execCount : Nat)
  | fuelOut
deriving DecidableEq, Repr

/-- `executeTaskLoop` (lines 529-608).  On an approved step the step is
marked completed and the cursor advances — except for the last step,
where the source only breaks out of the *inner* loop (line 588), leaving
`currentStepIndex` unchanged, so the outer loop re-enters on the same
step. -/
def executeTaskLoop (col : Collaborators) (maxRetries : Nat) (now : String) :
    List OStep → Nat → Nat → Nat → OuterOutcome
  | _steps, _idx, _execCount, 0 => .fuelOut
  | steps, idx, execCount, fuel + 1 =>
    if h : idx < steps.length then
      match innerLoop col maxRetries steps[idx] 0 maxRetries execCount with
      | .threw e ec => .threw e ec
      | .fellThrough ec => executeTaskLoop col maxRetries now steps idx ec fuel
      | .approvedStep ec =>
        let steps2 := steps.set idx (markCompleted steps[idx] now)
        if idx + 1 < steps.length then
          executeTaskLoop col maxRetries now steps2 (idx + 1) ec fuel
        else
          executeTaskLoop col maxRetries now steps2 idx ec fuel
    else .finished steps execCount

/-! ## Concrete sample inputs used by the theorems below -/

/-- An environment snapshot in which no file exists, nothing is
installed and every read returns the empty string. -/
def simpleEnv : Env :=
  { npmInstalled := fun _ => false, pathExists := fun _ => false,
    fileSize := fun _ => 0, readFile := fun _ => "" }

/-- An analysis step as the validator sees it. -/
def c1Step : VStep := { id := 2, title := "Análise e Preparação", type := "analysis" }

/-- An analysis execution record whose deliverables carry requirements
and a file structure but no dependency check, so the critical criterion
`Dependências verificadas` evaluates false while the other three
criteria (weights 30, 20 and 25) pass. -/
def c1Exec : ExecResult :=
  { deliverables := some { requirements := some "requisitos", fileStructure := some "estrutura" } }

/-- An error-free test record. -/
def c1Test : TestRecord := {}

/-- A fix step as the validator sees it. -/
def c6Step : VStep := { id := 3, title := "Correção", type := "fix" }

/-- A fix execution record for which every fix criterion passes. -/
def c6Exec : ExecResult :=
  { fixApplied := some true, originalProblemSolved := some true }

/-- An error-free test record for the fix step. -/
def c6Test : TestRecord := {}

/-- A single planner step used to drive the loop models. -/
def loopStep : OStep := analysisStepLit "general" "JavaScript"

/-- A validation result that approves. -/
def approvedVR : ValidationResult :=
  { stepId := 1, stepTitle := "Análise e Preparação", timestamp := "", approved := true,
    confidence := "high", reasons := ["✅ Requisitos analisados"], recommendations := [],
    nextStepApproved := true, finalApproval := true, qualityScore := 100,
    completeness := 100, metrics := {} }

/-- A validation result that rejects. -/
def rejectedVR : ValidationResult :=
  { stepId := 1, stepTitle := "Análise e Preparação", timestamp := "", approved := false,
    confidence := "low", reasons := ["❌ Requisitos analisados"], recommendations := [],
    nextStepApproved := false, finalApproval := false, qualityScore := 0,
    completeness := 0, metrics := {} }

/-- Collaborators whose execution and tests always succeed without
errors and whose validation always approves. -/
def approveCol : Collaborators :=
  { execute := fun _ => .ok {}, test := fun _ _ => .ok {},
    document := fun _ _ _ => .ok (), validateStep := fun _ _ _ => .ok approvedVR }

/-- Collaborators whose execution and tests always succeed without
errors but whose validation always rejects. -/
def rejectCol : Collaborators :=
  { execute := fun _ => .ok {}, test := fun _ _ => .ok {},
    document := fun _ _ _ => .ok (), validateStep := fun _ _ _ => .ok rejectedVR }

/-- A task with an empty description. -/
def emptyDescTask : Task := { description := "" }

/-- A non-critical check that evaluates false (the backup check of the
modification battery, mcp-2-tester.js lines 222-226). -/
def c10Check : TCheck :=
  { name := "Backup criado antes da modificação", test := .ok false, critical := false }

/-- The spec's notion of planning failing with an `InvalidTask` error.
Modelled from the spec: no `InvalidTask` error class exists in the
source, so such a failure is represented as an explicitly thrown
`Error` whose message mentions `InvalidTask`. -/
def failsWithInvalidTask (r : Except JsError (List OStep)) : Prop :=
  ∃ m, r = .error (.jsError m) ∧ jsIncludes m "InvalidTask" = true

/-! ## Helper lemmas: the validator pipeline never reads or writes the
timestamp after initialization -/

theorem evaluateCriteria_timestamp (cs : List Criterion) (v : ValidationResult) (t : String) :
    evaluateCriteria cs { v with timestamp := t } = { evaluateCriteria cs v with timestamp := t } :=
  rfl

theorem validateAnalysis_timestamp (env : Env) (er : ExecResult) (tr : TestRecord)
    (v : ValidationResult) (t : String) :
    validateAnalysis env er tr { v with timestamp := t } =
      { validateAnalysis env er tr v with timestamp := t } :=
  rfl

theorem validateImplementation_timestamp (env : Env) (s : VStep) (er : ExecResult)
    (tr : TestRecord) (v : ValidationResult) (t : String) :
    validateImplementation env s er tr { v with timestamp := t } =
      { validateImplementation env s er tr v with timestamp := t } :=
  rfl

theorem validateInvestigation_timestamp (er : ExecResult) (v : ValidationResult) (t : String) :
    validateInvestigation er { v with timestamp := t } =
      { validateInvestigation er v with timestamp := t } :=
  rfl

theorem validateFix_timestamp (s : VStep) (er : ExecResult) (tr : TestRecord)
    (v : ValidationResult) (t : String) :
    validateFix s er tr { v with timestamp := t } =
      { validateFix s er tr v with timestamp := t } :=
  rfl

theorem validateRefactor_timestamp (s : VStep) (er : ExecResult) (tr : TestRecord)
    (v : ValidationResult) (t : String) :
    validateRefactor s er tr { v with timestamp := t } =
      { validateRefactor s er tr v with timestamp := t } :=
  rfl

theorem validateTesting_timestamp (s : VStep) (er : ExecResult) (tr : TestRecord)
    (v : ValidationResult) (t : String) :
    validateTesting s er tr { v with timestamp := t } =
      { validateTesting s er tr v with timestamp := t } :=
  rfl

theorem validateDocumentation_timestamp (env : Env) (s : VStep) (er : ExecResult)
    (v : ValidationResult) (t : String) :
    validateDocumentation env s er { v with timestamp := t } =
      { validateDocumentation env s er v with timestamp := t } :=
  rfl

theorem validateValidation_timestamp (er : ExecResult) (v : ValidationResult) (t : String) :
    validateValidation er { v with timestamp := t } =
      { validateValidation er v with timestamp := t } :=
  rfl

theorem validateGeneral_timestamp (er : ExecResult) (tr : TestRecord)
    (v : ValidationResult) (t : String) :
    validateGeneral er tr { v with timestamp := t } =
      { validateGeneral er tr v with timestamp := t } :=
  rfl

theorem validateByType_timestamp (env : Env) (s : VStep) (er : ExecResult) (tr : TestRecord)
    (v : ValidationResult) (t : String) :
    validateByType env s er tr { v with timestamp := t } =
      { validateByType env s er tr v with timestamp := t } := by
  unfold validateByType
  split_ifs <;> rfl

theorem performGeneralValidation_timestamp (er : ExecResult) (v : ValidationResult) (t : String) :
    performGeneralValidation er { v with timestamp := t } =
      { performGeneralValidation er v with timestamp := t } :=
  rfl

theorem calculateFinalApproval_timestamp (v : ValidationResult) (t : String) :
    calculateFinalApproval { v with timestamp := t } =
      { calculateFinalApproval v with timestamp := t } :=
  rfl

theorem checkNextStepReadiness_timestamp (s : VStep) (v : ValidationResult) (t : String) :
    checkNextStepReadiness s { v with timestamp := t } =
      { checkNextStepReadiness s v with timestamp := t } :=
  rfl

/-- The value returned by `validate` depends on the clock reading only
through its `timestamp` field. -/
theorem validate_setTimestamp (env : Env) (s : VStep) (er : ExecResult) (tr : TestRecord)
    (t1 t2 : String) :
    validate env s er tr t1 = { validate env s er tr t2 with timestamp := t1 } := by
  unfold validate
  rw [show initValidation s t1 = { initValidation s t2 with timestamp := t1 } from rfl,
    validateByType_timestamp, performGeneralValidation_timestamp,
    calculateFinalApproval_timestamp, checkNextStepReadiness_timestamp]

/-- The timestamp of a validation result is the clock reading of that
run. -/
theorem validate_timestamp (env : Env) (s : VStep) (er : ExecResult) (tr : TestRecord)
    (t : String) : (validate env s er tr t).timestamp = t := by
  rw [show validate env s er tr t = { validate env s er tr "" with timestamp := t } from
    validate_setTimestamp env s er tr t ""]

/-! ## Claim C9: idempotence of the validation gate -/

/-- C9, as stated, is false: `validate` stamps each run with the current
clock reading, so two runs of the same (step, executionResult,
testResult) triple at different instants differ in their `timestamp`
field. -/
theorem c9_counterexample_timestamp_differs :
    validate simpleEnv c1Step c1Exec c1Test "2025-01-01T00:00:00.000Z" ≠
      validate simpleEnv c1Step c1Exec c1Test "2025-01-02T00:00:00.000Z" := by
  intro h
  have h2 := congrArg ValidationResult.timestamp h
  rw [validate_timestamp, validate_timestamp] at h2
  exact absurd h2 (by decide)

/-- C9 (amended): re-running `MCPValidator.validate` on the same
(step, executionResult, testResult) triple yields ValidationResults that
are identical in every field except `timestamp`, which records the clock
reading of each run; no hidden state affects the output (the
`validationHistory` accumulator is write-only with respect to the
result). -/
theorem c9_validate_deterministic_up_to_timestamp (env : Env) (s : VStep) (er : ExecResult)
    (tr : TestRecord) (t1 t2 : String) :
    validate env s er tr t1 = { validate env s er tr t2 with timestamp := t1 } :=
  validate_setTimestamp env s er tr t1 t2

/-! ## Claim C1: the approval rule -/

/-- C1 is false on the code: for the analysis record `c1Exec` the
critical criterion `Dependências verificadas` evaluates false, yet the
returned ValidationResult is approved with quality score 75, because
`calculateFinalApproval` looks for a `CRÍTICO` marker that
`evaluateCriteria` never writes into the reasons.  The theorem
evaluates the validator at this failing input: approved is true, the
quality score is 75, and the step's rubric contains a critical
criterion that evaluated false (its `❌` reason is in the result). -/
theorem c1_approved_despite_critical_failure :
    (validate simpleEnv c1Step c1Exec c1Test "T").approved = true ∧
    (validate simpleEnv c1Step c1Exec c1Test "T").qualityScore = 75 ∧
    (∃ c ∈ analysisCriteria c1Exec c1Test, c.critical = true ∧ c.check = .ok false ∧
      ("❌ " ++ c.name) ∈ (validate simpleEnv c1Step c1Exec c1Test "T").reasons) := by
  refine ⟨rfl, rfl, ?_⟩
  refine ⟨⟨"Dependências verificadas", .ok false, 25, true⟩, ?_, rfl, rfl, ?_⟩ <;> decide

/-! ## Claim C6: kind-specific narrowing of nextStepApproved -/

/-- C6 is false on the code in its fix case: for the fix record
`c6Exec` every criterion passes (the reason
`✅ Problema original resolvido` is present and the result is approved
with score 100), yet `nextStepApproved` is false, because
`checkNextStepReadiness` searches the reasons for the lowercase
substring `problema original`, which the capitalized criterion reason
never contains. -/
theorem c6_fix_next_step_never_approved :
    (validate simpleEnv c6Step c6Exec c6Test "T").approved = true ∧
    "✅ Problema original resolvido" ∈ (validate simpleEnv c6Step c6Exec c6Test "T").reasons ∧
    (validate simpleEnv c6Step c6Exec c6Test "T").nextStepApproved = false := by
  refine ⟨rfl, ?_, rfl⟩
  decide

/-! ## Claim C4: the diagnoser contract -/

/-- C4 is false on the code: the second `diagnose` definition shadows
the first, so the call the orchestrator makes with an error list raises
a `TypeError` (its `testResult` parameter is `undefined`) instead of
returning a Diagnosis, and the shadowed first definition would itself
raise a `TypeError` because `categorizeErrors` and the other helpers it
calls are not defined; no returned object ever carries `canAutoFix`. -/
theorem c4_diagnose_throws_instead_of_reporting :
    diagnoseAsCalled ["Cannot find module express"] =
      .error (.typeError "Cannot read properties of undefined (reading errors)") ∧
    diagnoseShadowed ["Cannot find module express"] =
      .error (.typeError "this.categorizeErrors is not a function") :=
  ⟨rfl, rfl⟩

/-! ## Helper lemmas for the execution loop -/

/-- When execution and tests succeed without errors, documentation
succeeds and validation approves, one pass through the try block
approves the step. -/
theorem attemptStep_approved_of (col : Collaborators)
    (hexec : ∀ s, ∃ er, col.execute s = .ok er)
    (htest : ∀ s er, ∃ tr, col.test s er = .ok tr ∧ tr.hasErrors = false)
    (hdoc : ∀ s er tr, col.document s er tr = .ok ())
    (hval : ∀ s er tr, ∃ vr, col.validateStep s er tr = .ok vr ∧ vr.approved = true)
    (s : OStep) : attemptStep col s = .approved := by
  obtain ⟨er, he⟩ := hexec s
  obtain ⟨tr, ht, htre⟩ := htest s er
  obtain ⟨vr, hv, hva⟩ := hval s er tr
  simp [attemptStep, he, ht, htre, hdoc, hv, hva]

/-- When the attempt always approves, the inner loop either falls
through immediately (retry ceiling zero) or approves after exactly one
execution. -/
theorem innerLoop_cases (col : Collaborators) (mr : Nat) (step : OStep) (ec : Nat)
    (h : attemptStep col step = .approved) :
    innerLoop col mr step 0 mr ec = .fellThrough ec ∨
      innerLoop col mr step 0 mr ec = .approvedStep (ec + 1) := by
  cases mr with
  | zero => exact Or.inl rfl
  | succ m => right; simp [innerLoop, h]

/-- Core of claim C2: when every attempt is approved, the outer loop
never exits — each approved step either advances the cursor or, on the
last step, re-enters with the same cursor, so the loop condition stays
true for every amount of fuel. -/
theorem executeTaskLoop_never_exits (col : Collaborators) (maxRetries : Nat) (now : String)
    (hatt : ∀ s, attemptStep col s = .approved) :
    ∀ fuel (steps : List OStep) idx ec, idx < steps.length →
      executeTaskLoop col maxRetries now steps idx ec fuel = .fuelOut := by
  intro fuel
  induction fuel with
  | zero => intro steps idx ec _h; rfl
  | succ n ih =>
    intro steps idx ec h
    simp only [executeTaskLoop]
    rw [dif_pos h]
    rcases innerLoop_cases col maxRetries (steps[idx]) ec (hatt _) with hI | hI <;> rw [hI]
    · exact ih steps idx ec h
    · show (if idx + 1 < steps.length then
          executeTaskLoop col maxRetries now
            (steps.set idx (markCompleted steps[idx] now)) (idx + 1) (ec + 1) n
        else
          executeTaskLoop col maxRetries now
            (steps.set idx (markCompleted steps[idx] now)) idx (ec + 1) n) = .fuelOut
      by_cases h2 : idx + 1 < steps.length
      · rw [if_pos h2]
        exact ih _ _ _ (by simpa [List.length_set] using h2)
      · rw [if_neg h2]
        exact ih _ _ _ (by simpa [List.length_set] using h)

/-! ## Claim C2: termination on all-approved tasks -/

/-- C2 is false on the code: for any nonempty step list whose every
attempt executes, tests and validates successfully, `executeTaskLoop`
never reaches its normal exit — after the last step is approved, the
`break` of line 588 only leaves the inner attempt loop, the cursor is
not advanced, and the outer loop re-executes the last step forever.
The loop therefore runs out of any amount of fuel instead of
terminating in the Completed state. -/
theorem c2_all_approved_loop_never_completes (col : Collaborators) (maxRetries : Nat)
    (now : String) (steps : List OStep) (hne : steps ≠ [])
    (hexec : ∀ s, ∃ er, col.execute s = .ok er)
    (htest : ∀ s er, ∃ tr, col.test s er = .ok tr ∧ tr.hasErrors = false)
    (hdoc : ∀ s er tr, col.document s er tr = .ok ())
    (hval : ∀ s er tr, ∃ vr, col.validateStep s er tr = .ok vr ∧ vr.approved = true) :
    ∀ fuel ec, executeTaskLoop col maxRetries now steps 0 ec fuel = .fuelOut := by
  intro fuel ec
  refine executeTaskLoop_never_exits col maxRetries now
    (attemptStep_approved_of col hexec htest hdoc hval) fuel steps 0 ec ?_
  cases steps with
  | nil => exact absurd rfl hne
  | cons a l => simp

/-- Witness for C2 at a concrete one-step task with always-approving
collaborators: seven outer iterations are not enough for the loop to
finish (nor is any number). -/
theorem c2_witness :
    ([loopStep] ≠ []) ∧
      executeTaskLoop approveCol 3 "T" [loopStep] 0 0 7 = .fuelOut := by
  refine ⟨by simp, ?_⟩
  exact c2_all_approved_loop_never_completes approveCol 3 "T" [loopStep] (by simp)
    (fun _s => ⟨{}, rfl⟩) (fun _s _er => ⟨{}, rfl, rfl⟩) (fun _s _er _tr => rfl)
    (fun _s _er _tr => ⟨approvedVR, rfl, rfl⟩) 7 0

/-! ## Claim C3: the retry ceiling scenario -/

/-- C3 is false on the code: with retry ceiling 3 and a validator that
rejects every attempt, the controller does not abort on the third
rejection — it aborts on the FIRST rejection, after exactly one
execution of the step, because the retry branch calls the undefined
method `this.sleep` and the resulting `TypeError` propagates out of the
loop.  The theorem evaluates the loop at this failing input. -/
theorem c3_aborts_on_first_rejection_not_third :
    executeTaskLoop rejectCol 3 "T" [loopStep] 0 0 10 =
      .threw (.typeError "this.sleep is not a function") 1 := by
  rfl

/-! ## Claim C5: the inter-retry pause -/

/-- C5 is false on the code: whenever an attempt fails with the retry
ceiling not yet reached, the retry branch does not pause and complete —
it raises `TypeError: this.sleep is not a function` (the class defines
`delay(ms)`, line 841, but line 603 calls `this.sleep(2000)`). -/
theorem c5_retry_branch_raises_type_error (e : JsError) (retryCount maxRetries : Nat)
    (h : retryCount + 1 < maxRetries) :
    retryBranch e retryCount maxRetries =
      .error (.typeError "this.sleep is not a function") := by
  unfold retryBranch
  rw [if_neg (by omega)]
  rfl

/-- Witness for C5: the first rejection under ceiling 3. -/
theorem c5_witness :
    (0 + 1 < 3) ∧
      retryBranch (.jsError "Validação falhou") 0 3 =
        .error (.typeError "this.sleep is not a function") :=
  ⟨by decide, c5_retry_branch_raises_type_error (.jsError "Validação falhou") 0 3 (by decide)⟩

/-! ## Helper lemmas about trimming -/

theorem dropWhile_length_le (p : Char → Bool) :
    ∀ l : List Char, (l.dropWhile p).length ≤ l.length := by
  intro l
  induction l with
  | nil => simp
  | cons a t ih =>
    simp only [List.dropWhile]
    split
    · exact Nat.le_succ_of_le ih
    · simp

/-- Trimming never lengthens a string. -/
theorem jsTrim_length_le (s : String) : (jsTrim s).length ≤ s.length := by
  show (((s.data.dropWhile Char.isWhitespace).reverse.dropWhile
    Char.isWhitespace).reverse).length ≤ s.data.length
  rw [List.length_reverse]
  calc ((s.data.dropWhile Char.isWhitespace).reverse.dropWhile Char.isWhitespace).length
      ≤ (s.data.dropWhile Char.isWhitespace).reverse.length :=
        dropWhile_length_le Char.isWhitespace _
    _ = (s.data.dropWhile Char.isWhitespace).length := List.length_reverse _
    _ ≤ s.data.length := dropWhile_length_le Char.isWhitespace _

/-! ## Claim C7: shape of the generated step list -/

/-- C7: for every task classification (the six recognized classes and
any other string, which falls to the general template) and language, the
step list generated by `createTaskSteps` has contiguous ids 1..N,
exactly one analysis step, which is first, and exactly one validation
step, which is last. -/
theorem c7_step_list_well_formed (taskType lang : String) :
    (createTaskSteps taskType lang).map OStep.id =
      List.range' 1 (createTaskSteps taskType lang).length ∧
    ((createTaskSteps taskType lang).map OStep.type).head? = some "analysis" ∧
    ((createTaskSteps taskType lang).map OStep.type).getLast? = some "validation" ∧
    ((createTaskSteps taskType lang).map OStep.type).count "analysis" = 1 ∧
    ((createTaskSteps taskType lang).map OStep.type).count "validation" = 1 := by
  unfold createTaskSteps middleSteps
  split_ifs <;> exact ⟨rfl, rfl, rfl, rfl, rfl⟩

/-! ## Claim C8: planning failure on invalid descriptions -/

/-- C8, as stated, is false: planning a task with an empty description
does fail before any step is created, but with a `TypeError` from the
undefined method `identifyTaskType`, not with an `InvalidTask` error
(no such error exists anywhere in the source). -/
theorem c8_counterexample_no_invalid_task_error :
    orchestrateTask emptyDescTask "JavaScript" =
      .error (.typeError "this.identifyTaskType is not a function") ∧
    ¬ failsWithInvalidTask (orchestrateTask emptyDescTask "JavaScript") := by
  refine ⟨rfl, ?_⟩
  rintro ⟨m, hm, _⟩
  rw [show orchestrateTask emptyDescTask "JavaScript" =
      .error (.typeError "this.identifyTaskType is not a function") from rfl] at hm
  simp at hm

/-- C8 (amended): for every task whose description is empty or below
the minimum length, planning fails before any step is created — but
with `TypeError: this.identifyTaskType is not a function` (as it does
for every task), not an `InvalidTask` error; the minimum-length rule
lives only in the interactive prompt's validation, which rejects such a
description (re-prompting) rather than raising. -/
theorem c8_short_description_planning_raises_type_error (task : Task) (lang : String)
    (h : task.description.length ≤ 10) :
    orchestrateTask task lang =
      .error (.typeError "this.identifyTaskType is not a function") ∧
    promptValidateDescription task.description = false ∧
    ∀ steps, orchestrateTask task lang ≠ .ok steps := by
  refine ⟨rfl, ?_, fun steps hs => ?_⟩
  · have hle := jsTrim_length_le task.description
    simp only [promptValidateDescription, decide_eq_false_iff_not, not_lt]
    omega
  · rw [show orchestrateTask task lang =
        .error (.typeError "this.identifyTaskType is not a function") from rfl] at hs
    exact Except.noConfusion hs

/-- Witness for C8 (amended) at the empty description. -/
theorem c8_witness :
    (emptyDescTask.description.length ≤ 10) ∧
      (orchestrateTask emptyDescTask "JavaScript" =
        .error (.typeError "this.identifyTaskType is not a function") ∧
      promptValidateDescription emptyDescTask.description = false ∧
      ∀ steps, orchestrateTask emptyDescTask "JavaScript" ≠ .ok steps) :=
  ⟨by decide, c8_short_description_planning_raises_type_error emptyDescTask "JavaScript" (by decide)⟩

/-! ## Helper lemmas for claim C10 -/

theorem applyCheck_failed_mono (c : TCheck) (tr : TestRecord) (x : String)
    (h : x ∈ tr.failed) : x ∈ (applyCheck c tr).failed := by
  unfold applyCheck
  split
  · exact h
  · split <;> simp [h]
  · simp [h]

theorem applyCheck_warnings_mono (c : TCheck) (tr : TestRecord) (x : String)
    (h : x ∈ tr.warnings) : x ∈ (applyCheck c tr).warnings := by
  unfold applyCheck
  split
  · exact h
  · split <;> simp [h]
  · simp [h]

theorem runTestSuite_failed_mono (cs : List TCheck) (tr : TestRecord) (x : String)
    (h : x ∈ tr.failed) : x ∈ (runTestSuite cs tr).failed := by
  induction cs generalizing tr with
  | nil => exact h
  | cons c rest ih => exact ih _ (applyCheck_failed_mono c tr x h)

theorem runTestSuite_warnings_mono (cs : List TCheck) (tr : TestRecord) (x : String)
    (h : x ∈ tr.warnings) : x ∈ (runTestSuite cs tr).warnings := by
  induction cs generalizing tr with
  | nil => exact h
  | cons c rest ih => exact ih _ (applyCheck_warnings_mono c tr x h)

/-- A check of the battery that evaluates false lands in the failed
list, and when non-critical also in the warnings. -/
theorem runTestSuite_hits (cs : List TCheck) (tr : TestRecord) (c : TCheck)
    (hc : c ∈ cs) (hf : c.test = .ok false) :
    c.name ∈ (runTestSuite cs tr).failed ∧
      (c.critical = false → c.name ∈ (runTestSuite cs tr).warnings) := by
  induction cs generalizing tr with
  | nil => cases hc
  | cons c0 rest ih =>
    rcases List.mem_cons.mp hc with rfl | hmem
    · constructor
      · show c.name ∈ (runTestSuite rest (applyCheck c tr)).failed
        apply runTestSuite_failed_mono
        by_cases hcr : c.critical = true <;> simp [applyCheck, hf, hcr]
      · intro hncrit
        show c.name ∈ (runTestSuite rest (applyCheck c tr)).warnings
        apply runTestSuite_warnings_mono
        simp [applyCheck, hf, hncrit]
    · exact ih (applyCheck c0 tr) hmem

/-! ## Claim C10: non-critical check failures block progression -/

/-- C10: in every battery run by `runTestSuite`, a check that evaluates
false is appended to the failed list even when non-critical (and a
non-critical failure is additionally recorded as a warning); and on any
test record whose failed list contains it, the final computation of
`test` sets `hasErrors` true and `canProceed` false. -/
theorem c10_non_critical_failure_blocks (checks : List TCheck) (tr : TestRecord) (c : TCheck)
    (hc : c ∈ checks) (hf : c.test = .ok false) :
    c.name ∈ (runTestSuite checks tr).failed ∧
    (c.critical = false → c.name ∈ (runTestSuite checks tr).warnings) ∧
    (∀ tr2 : TestRecord, c.name ∈ tr2.failed →
      (testFinalize tr2).hasErrors = true ∧ (testFinalize tr2).canProceed = false) := by
  obtain ⟨h1, h2⟩ := runTestSuite_hits checks tr c hc hf
  refine ⟨h1, h2, fun tr2 hmem => ?_⟩
  have hlen : 0 < tr2.failed.length := List.length_pos.mpr (List.ne_nil_of_mem hmem)
  constructor
  · simp [testFinalize]
    omega
  · simp [testFinalize]
    omega

/-- Witness for C10: a battery consisting of the single failing
non-critical backup check, run on a fresh test record. -/
theorem c10_witness :
    (c10Check ∈ [c10Check] ∧ c10Check.test = .ok false) ∧
    (c10Check.name ∈ (runTestSuite [c10Check] {}).failed ∧
     (c10Check.critical = false → c10Check.name ∈ (runTestSuite [c10Check] {}).warnings) ∧
     (∀ tr2 : TestRecord, c10Check.name ∈ tr2.failed →
       (testFinalize tr2).hasErrors = true ∧ (testFinalize tr2).canProceed = false)) :=
  ⟨⟨by simp, rfl⟩, c10_non_critical_failure_blocks [c10Check] {} c10Check (by simp) rfl⟩

end MCP
